import Mathlib

/-!
Shallow embedding of the backlinks-verifier core (`src/main.py`):
the page fetcher's retry/status loop, the match engine
(`verify_backlink`), the batch orchestrator and the summary
aggregation.  Python string primitives (`lower`, `upper`, `title`,
`find`, `in`, slicing, `split`, `replace`, `rstrip`,
`' '.join(s.split())`) are modelled character-exactly over `List Char`
(ASCII case mapping).  Network I/O is modelled by an explicit list of
per-attempt responses; HTML parsing (BeautifulSoup) is abstracted as
two extraction functions passed to the fetch loop, which the claims
below never inspect.
-/

set_option maxRecDepth 100000

namespace Backlinks

/-- Python `s.lower()` (ASCII case model). -/
def pyLower (s : String) : String := ⟨s.data.map Char.toLower⟩

/-- Python `s.upper()` (ASCII case model). -/
def pyUpper (s : String) : String := ⟨s.data.map Char.toUpper⟩

/-- Helper for `pyTitle`: the boolean records whether the previous
character was alphabetic (cased). -/
def titleAux : Bool → List Char → List Char
  | _, [] => []
  | prevAlpha, c :: t =>
    if c.isAlpha then
      (if prevAlpha then c.toLower else c.toUpper) :: titleAux true t
    else
      c :: titleAux false t

/-- Python `s.title()`: uppercase each letter that follows a
non-letter, lowercase the other letters. -/
def pyTitle (s : String) : String := ⟨titleAux false s.data⟩

/-- First index at which `needle` occurs in the haystack, scanning left
to right (the index Python `str.find` returns when non-negative). -/
def subFind (needle : List Char) : List Char → Option Nat
  | [] => if needle.isPrefixOf ([] : List Char) then some 0 else none
  | c :: t =>
    if needle.isPrefixOf (c :: t) then some 0
    else (subFind needle t).map (· + 1)

/-- Python `needle in hay` (substring containment). -/
def pyIn (needle hay : String) : Bool := decide (needle.data <:+: hay.data)

/-- Python `hay.find(needle)` returning `none` for `-1`. -/
def pyFindN (hay needle : String) : Option Nat := subFind needle.data hay.data

/-- Python `len(s)` (character count). -/
def pyLen (s : String) : Nat := s.data.length

/-- Python slice `s[a:b]` for non-negative bounds (clamped). -/
def pySlice (s : String) (a b : Nat) : String := ⟨(s.data.drop a).take (b - a)⟩

/-- Python `s.replace(pat, sub)` on character lists: replace each
non-overlapping occurrence, scanning left to right.  (For the empty
pattern — never used by the source — the input is returned.)  The
fuel argument, instantiated with the input length, makes the
recursion structural; every step consumes at least one character, so
the fuel never runs out. -/
def replaceLoop (pat sub : List Char) : Nat → List Char → List Char
  | 0, l => l
  | _ + 1, [] => []
  | fuel + 1, c :: t =>
    if pat.isPrefixOf (c :: t) ∧ pat ≠ [] then
      sub ++ replaceLoop pat sub fuel (t.drop (pat.length - 1))
    else
      c :: replaceLoop pat sub fuel t

/-- Python `s.replace(pat, sub)`. -/
def pyReplace (s pat sub : String) : String :=
  ⟨replaceLoop pat.data sub.data s.data.length s.data⟩

/-- Python `s.rstrip('/')`. -/
def pyRstripSlash (s : String) : String :=
  ⟨(s.data.reverse.dropWhile (· = '/')).reverse⟩

/-- Python `s.split(c)[0]`: the segment before the first occurrence of
`c` (the whole string when `c` is absent). -/
def pyTakeBefore (s : String) (c : Char) : String := ⟨s.data.takeWhile (· ≠ c)⟩

/-- Helper for `pySplitChar`: accumulates the current segment reversed. -/
def splitCharAux (c : Char) : List Char → List Char → List (List Char)
  | acc, [] => [acc.reverse]
  | acc, x :: t =>
    if x = c then acc.reverse :: splitCharAux c [] t
    else splitCharAux c (x :: acc) t

/-- Python `s.split(c)` (single-character separator, keeps empty
segments). -/
def pySplitChar (s : String) (c : Char) : List String :=
  (splitCharAux c [] s.data).map (⟨·⟩)

/-- Helper for `pyWords`: maximal runs of non-whitespace characters. -/
def wordsAux : List Char → List Char → List (List Char)
  | acc, [] => if acc.isEmpty then [] else [acc.reverse]
  | acc, c :: t =>
    if c.isWhitespace then
      if acc.isEmpty then wordsAux [] t else acc.reverse :: wordsAux [] t
    else wordsAux (c :: acc) t

/-- Python `s.split()` (split on whitespace runs, no empty segments). -/
def pyWords (s : String) : List String := (wordsAux [] s.data).map (⟨·⟩)

/-- Join a list of strings with single spaces. -/
def joinSpace : List String → String
  | [] => ""
  | [x] => x
  | x :: t => x ++ " " ++ joinSpace t

/-- Python `' '.join(s.split())`: collapse whitespace runs to single
spaces and strip both ends. -/
def pyCollapse (s : String) : String := joinSpace (pyWords s)

/-- Python `s.strip()`. -/
def pyStrip (s : String) : String :=
  ⟨((s.data.dropWhile Char.isWhitespace).reverse.dropWhile Char.isWhitespace).reverse⟩

/-- Python `re.sub(r'<[^>]+>', ' ', s)` modelled as a left-to-right
scan: at each `<`, if a later `>` exists with at least one character
between, the whole `<...>` run becomes one space; otherwise the `<` is
kept literally.  Fuel (instantiated with the input length) makes the
recursion structural; every step consumes at least one character. -/
def stripTagsLoop : Nat → List Char → List Char
  | 0, l => l
  | _ + 1, [] => []
  | fuel + 1, c :: t =>
    if c = '<' then
      match t.dropWhile (· ≠ '>') with
      | '>' :: after =>
        if t.takeWhile (· ≠ '>') = [] then '<' :: '>' :: stripTagsLoop fuel after
        else ' ' :: stripTagsLoop fuel after
      | _ => c :: stripTagsLoop fuel t
    else c :: stripTagsLoop fuel t

/-- Python `re.sub(r'<[^>]+>', ' ', s)`. -/
def stripTags (s : String) : String := ⟨stripTagsLoop s.data.length s.data⟩

/-- Helper for `pyDedup`: drops elements already seen. -/
def dedupAux : List String → List String → List String
  | _, [] => []
  | seen, x :: t =>
    if seen.contains x then dedupAux seen t else x :: dedupAux (x :: seen) t

/-- Python `list(dict.fromkeys(l))`: deduplicate preserving first
occurrence order. -/
def pyDedup (l : List String) : List String := dedupAux [] l

/-- The dictionary returned by `fetch_page_content` (spec:
FetchOutcome).  On success, `text_content`/`html_content` hold the
lowercased normalized page text and markup; on failure, `error` holds
the message. -/
structure FetchOutcome where
  success : Bool
  text_content : String
  html_content : String
  status_code : Option Nat
  url : String
  warning : Option String
  error : Option String
deriving Repr, DecidableEq

/-- The `BacklinkResult` record (spec: MatchResult). -/
structure BacklinkResult where
  url : String
  search_term : String
  verified : Bool
  error : Option String
  status_code : Option Nat
  found_in : Option String
  context : Option String
  found_variation : Option String
  warning : Option String
deriving Repr, DecidableEq

/-- The search-variation list built at the top of `verify_backlink`
(main.py lines 312-386). -/
def generate_variations (search_term : String) (case_sensitive : Bool) : List String :=
  if case_sensitive then [search_term]
  else
    let base_term := pyLower search_term
    let initial := [base_term]
    let vars :=
      if ["http", "www.", ".com", ".in", ".org", ".net"].any
          (fun indicator => pyIn indicator base_term) then
        let clean_url :=
          pyRstripSlash (pyReplace (pyReplace (pyReplace base_term "https://" "")
            "http://" "") "www." "")
        let v1 := initial ++
          [base_term, pyUpper search_term, pyTitle search_term,
           clean_url, "www." ++ clean_url,
           "https://" ++ clean_url, "http://" ++ clean_url,
           "https://www." ++ clean_url, "http://www." ++ clean_url,
           clean_url ++ "/", "www." ++ clean_url ++ "/",
           "https://" ++ clean_url ++ "/", "http://" ++ clean_url ++ "/",
           "https://www." ++ clean_url ++ "/", "http://www." ++ clean_url ++ "/"]
        let v2 :=
          if pyIn "." clean_url then
            let domain_parts := pySplitChar (pyTakeBefore clean_url '/') '.'
            if 2 ≤ domain_parts.length then
              let brand_name := domain_parts.headD ""
              v1 ++ [brand_name, pyUpper brand_name, pyTitle brand_name]
            else v1
          else v1
        let base_domain := pyTakeBefore clean_url '/'
        v2 ++ [base_domain, "www." ++ base_domain,
               "https://" ++ base_domain, "https://www." ++ base_domain]
      else
        initial ++
          [base_term ++ ".com", "www." ++ base_term ++ ".com",
           "https://" ++ base_term ++ ".com", "https://www." ++ base_term ++ ".com",
           "http://" ++ base_term ++ ".com", "http://www." ++ base_term ++ ".com",
           pyUpper base_term, pyTitle base_term]
    pyDedup vars

/-- Context extraction for a variation found in the text content
(main.py lines 410-426).  Returns `none` exactly when `find` would
return `-1` (in which case the Python `context` variable stays
`None`). -/
def textHit (variation text : String) : Option String :=
  match pyFindN text variation with
  | none => none
  | some index =>
    let start := index - 200
    let stop := min (pyLen text) (index + pyLen variation + 200)
    let raw_context := pySlice text start stop
    let context := pyCollapse raw_context
    if 50 < pyLen context then
      match pyFindN (pyLower context) (pyLower variation) with
      | some term_pos =>
        if 150 < term_pos then
          some ("..." ++ pySlice context (term_pos - 100) (term_pos + 200) ++ "...")
        else some context
      | none => some context
    else some context

/-- The text-content scan loop (main.py lines 405-427): first
variation contained in the text wins. -/
def scanText (variations : List String) (text : String) :
    Option (String × Option String) :=
  match variations with
  | [] => none
  | v :: rest =>
    if pyIn v text then some (v, textHit v text) else scanText rest text

/-- Context extraction for a variation found in the HTML content
(main.py lines 437-453), including the source's dead `else` branch for
`find` returning `-1`. -/
def htmlHit (variation html : String) : String :=
  match pyFindN html variation with
  | some index =>
    let start := index - 150
    let stop := min (pyLen html) (index + pyLen variation + 150)
    let html_context := pySlice html start stop
    let clean_context := pyCollapse (stripTags html_context)
    if pyStrip clean_context ≠ "" then "HTML: " ++ clean_context
    else "Found in HTML source code"
  | none => "Found in HTML attributes or tags"

/-- The HTML-content scan loop (main.py lines 430-454). -/
def scanHtml (variations : List String) (html : String) :
    Option (String × String) :=
  match variations with
  | [] => none
  | v :: rest =>
    if pyIn v html then some (v, htmlHit v html) else scanHtml rest html

/-- The final-URL scan loop (main.py lines 468-475): first variation
contained in the lowercased final URL. -/
def scanUrl (variations : List String) (current_url : String) : Option String :=
  variations.find? (fun v => pyIn v current_url)

/-- The domain-in-links heuristic (main.py lines 478-489).  The search
domain is stripped of protocol/`www.`/path only when the lowercased
term contains `"http"`; the step fires when the first dot-separated
label of the search domain is longer than 3 characters and occurs in
the HTML content. -/
def finalHeuristic (search_term html_content : String) : Option (String × String) :=
  let sd0 := pyLower search_term
  let search_domain :=
    if pyIn "http" sd0 then
      pyTakeBefore (pyReplace (pyReplace (pyReplace sd0 "https://" "")
        "http://" "") "www." "") '/'
    else sd0
  let tok := pyTakeBefore search_domain '.'
  if pyIn tok html_content && decide (3 < pyLen tok) then
    some (search_domain, "Domain found in page links")
  else none

/-- Python `context[:500] if context else None`: an empty-string
context is falsy and becomes `None`; otherwise the context is
truncated to 500 characters. -/
def finalizeContext (context : Option String) : Option String :=
  match context with
  | some c => if c ≠ "" then some (pySlice c 0 500) else none
  | none => none

/-- Body of `verify_backlink` after the fetch (main.py lines 300-504) as a
function of the fetch outcome: the failure short-circuit, then the
four-step cascade (text scan, HTML scan, final-URL scan, domain
heuristic), first hit wins. -/
def verify_backlink (o : FetchOutcome) (url search_term : String)
    (search_in_html case_sensitive : Bool) : BacklinkResult :=
  if o.success = false then
    { url := url, search_term := search_term, verified := false,
      error := o.error, status_code := o.status_code,
      found_in := none, context := none, found_variation := none,
      warning := none }
  else
    let search_variations := generate_variations search_term case_sensitive
    let text_content := o.text_content
    let html_content := o.html_content
    match scanText search_variations text_content with
    | some (v, context) =>
      { url := url, search_term := search_term, verified := true,
        error := none, status_code := o.status_code,
        found_in := some "Page Text", context := finalizeContext context,
        found_variation := some v, warning := o.warning }
    | none =>
      match (if search_in_html then scanHtml search_variations html_content
             else none) with
      | some (v, context) =>
        { url := url, search_term := search_term, verified := true,
          error := none, status_code := o.status_code,
          found_in := some "HTML/Links", context := finalizeContext (some context),
          found_variation := some v, warning := o.warning }
      | none =>
        let current_url := pyLower o.url
        match scanUrl search_variations current_url with
        | some v =>
          { url := url, search_term := search_term, verified := true,
            error := none, status_code := o.status_code,
            found_in := some "HTML/Links",
            context := finalizeContext (some ("Found in page URL: " ++ current_url)),
            found_variation := some v, warning := o.warning }
        | none =>
          match (if search_in_html then finalHeuristic search_term html_content
                 else none) with
          | some (v, context) =>
            { url := url, search_term := search_term, verified := true,
              error := none, status_code := o.status_code,
              found_in := some "HTML/Links",
              context := finalizeContext (some context),
              found_variation := some v, warning := o.warning }
          | none =>
            { url := url, search_term := search_term, verified := false,
              error := none, status_code := o.status_code,
              found_in := none, context := none, found_variation := none,
              warning := o.warning }

/-- One network attempt inside `fetch_page_content`'s retry loop:
either an HTTP response (status, decoded body — empty string models
empty `response.content` — and post-redirect URL), a timeout, or a
request exception with a message and optional carried status code. -/
inductive Attempt where
  | resp (status : Nat) (body : String) (finalUrl : String)
  | timeout (seconds : Nat)
  | netError (msg : String) (status : Option Nat)
deriving Repr, DecidableEq

/-- The retry loop of `fetch_page_content` (main.py lines 180-295) over
an explicit list of per-attempt results (the list length plays the
role of `max_retries`; `rest ≠ []` is Python's
`attempt < max_retries - 1`).  `extractText`/`extractHtml` abstract
the BeautifulSoup text extraction and serialization applied to a 2xx
body (script/style removal, whitespace joining, lowercasing). -/
def fetchLoop (extractText extractHtml : String → String) (url : String) :
    List Attempt → FetchOutcome
  | [] =>
    { success := false, text_content := "", html_content := "",
      status_code := none, url := url, warning := none,
      error := "Failed after 3 attempts" }
  | a :: rest =>
    match a with
    | .resp status body finalUrl =>
      if status = 403 then
        let content_text := pyLower body
        if body ≠ "" ∧ 100 < pyLen content_text then
          { success := true, text_content := content_text,
            html_content := content_text, status_code := some 403,
            url := finalUrl,
            warning := some "403 Forbidden but content was accessible",
            error := none }
        else if rest ≠ [] then fetchLoop extractText extractHtml url rest
        else
          { success := false, text_content := "", html_content := "",
            status_code := some 403, url := url, warning := none,
            error := some "403 Forbidden - Access denied" }
      else if status = 429 then
        if rest ≠ [] then fetchLoop extractText extractHtml url rest
        else
          { success := false, text_content := "", html_content := "",
            status_code := some 429, url := url, warning := none,
            error := some "429 Too Many Requests - Rate limited" }
      else if 400 ≤ status then
        -- raise_for_status: the HTTPError lands in the RequestException handler
        if rest ≠ [] then fetchLoop extractText extractHtml url rest
        else
          { success := false, text_content := "", html_content := "",
            status_code := some status, url := url, warning := none,
            error := some ("HTTP error " ++ toString status) }
      else
        { success := true, text_content := extractText body,
          html_content := extractHtml body, status_code := some status,
          url := finalUrl, warning := none, error := none }
    | .timeout seconds =>
      if rest ≠ [] then fetchLoop extractText extractHtml url rest
      else
        { success := false, text_content := "", html_content := "",
          status_code := none, url := url, warning := none,
          error := some ("Request timeout after " ++ toString seconds ++ " seconds") }
    | .netError msg status =>
      if rest ≠ [] then fetchLoop extractText extractHtml url rest
      else
        { success := false, text_content := "", html_content := "",
          status_code := status, url := url, warning := none,
          error := some msg }

/-- The error result built by `verify_multiple_backlinks` when a
per-URL operation raises (main.py lines 716-725 / 741-751). -/
def processingErrorResult (url search_term msg : String) : BacklinkResult :=
  { url := url, search_term := search_term, verified := false,
    error := some ("Processing error: " ++ msg), status_code := none,
    found_in := none, context := none, found_variation := none,
    warning := none }

/-- The per-URL collection logic of `verify_multiple_backlinks`
(main.py lines 694-761): URLs that are empty after stripping are
skipped, each remaining URL contributes exactly one result, and an
exception from the per-URL operation (modelled by `Except.error`) is
caught into a processing-error result.  The thread pool's completion
order is nondeterministic; the model lists results in input order (the
claims below are order-independent). -/
def verify_multiple_backlinks (op : String → Except String BacklinkResult)
    (search_term : String) (urls : List String) : List BacklinkResult :=
  (urls.filter (fun u => pyStrip u ≠ "")).map (fun u =>
    match op (pyStrip u) with
    | .ok r => r
    | .error e => processingErrorResult (pyStrip u) search_term e)

/-- Python truthiness of an optional string field (`if r.error`). -/
def pyTruthyStr : Option String → Bool
  | none => false
  | some s => s ≠ ""

/-- Round-half-to-even at one decimal place (Python `round(x, 1)`,
idealized over the rationals). -/
def pyRound1 (q : ℚ) : ℚ :=
  let x := 10 * q
  let n := ⌊x⌋
  let f := x - n
  let r : ℤ :=
    if f > 1/2 then n + 1
    else if f < 1/2 then n
    else if n % 2 = 0 then n else n + 1
  (r : ℚ) / 10

/-- The batch summary (main.py lines 781-790 / 869-878). -/
structure Summary where
  total_urls : Nat
  verified_count : Nat
  error_count : Nat
  success_rate : ℚ
deriving Repr, DecidableEq

/-- The aggregation in `process_backlinks` / `verify_backlinks_sync`:
count truthy `verified`, count truthy `error`, and compute
`round((verified_count / total_count) * 100, 1)` (0 when there are no
results). -/
def mkSummary (results : List BacklinkResult) : Summary :=
  let verified_count := (results.filter (fun r => r.verified)).length
  let error_count := (results.filter (fun r => pyTruthyStr r.error)).length
  let total_count := results.length
  { total_urls := total_count, verified_count := verified_count,
    error_count := error_count,
    success_rate :=
      if 0 < total_count then
        pyRound1 (((verified_count : ℚ) / (total_count : ℚ)) * 100)
      else 0 }

/-! ### Helper lemmas -/

/-- If a pattern is an infix of a haystack, the left-to-right scan
`subFind` locates an occurrence. -/
lemma subFind_isSome_of_infix :
    ∀ {hay needle : List Char}, needle <:+: hay → (subFind needle hay).isSome = true := by
  intro hay
  induction hay with
  | nil =>
    intro needle h
    rw [List.infix_nil] at h
    subst h
    simp [subFind, List.isPrefixOf]
  | cons c t ih =>
    intro needle h
    rcases List.infix_cons_iff.mp h with hpre | hinf
    · simp [subFind, List.isPrefixOf_iff_prefix.mpr hpre]
    · unfold subFind
      by_cases hp : needle.isPrefixOf (c :: t)
      · simp [hp]
      · simp only [hp, if_false]
        simpa using ih hinf

/-- Containment implies `find` succeeds (`str.find` never returns `-1` on a
contained substring). -/
lemma pyFindN_isSome_of_pyIn {needle hay : String} (h : pyIn needle hay = true) :
    (pyFindN hay needle).isSome = true :=
  subFind_isSome_of_infix (of_decide_eq_true h)

/-- Characters of a contained substring occur in the haystack. -/
lemma mem_of_pyIn {needle hay : String} (h : pyIn needle hay = true) :
    ∀ c ∈ needle.data, c ∈ hay.data := by
  intro c hc
  exact (of_decide_eq_true h : needle.data <:+: hay.data).subset hc

/-- A term containing an uppercase letter is never contained in a
fully-lowercase haystack. -/
lemma pyIn_eq_false_of_upper {term hay : String}
    (hterm : ∃ c ∈ term.data, c.isUpper = true)
    (hhay : ∀ c ∈ hay.data, c.isUpper = false) : pyIn term hay = false := by
  rcases hterm with ⟨c, hc, hcu⟩
  by_contra h
  have hmem : c ∈ hay.data := mem_of_pyIn (Bool.not_eq_false _ ▸ h) c hc
  rw [hhay c hmem] at hcu
  exact Bool.false_ne_true hcu

/-- Unfolding lemma for the HTML scan loop: a hit records the first
contained variation together with its `htmlHit` context. -/
lemma scanHtml_eq_some {variations : List String} {html v : String} {ctx : String}
    (h : scanHtml variations html = some (v, ctx)) :
    pyIn v html = true ∧ ctx = htmlHit v html := by
  induction variations with
  | nil => simp [scanHtml] at h
  | cons v' rest ih =>
    unfold scanHtml at h
    by_cases hin : pyIn v' html
    · simp only [hin, if_true, Option.some.injEq, Prod.mk.injEq] at h
      obtain ⟨hv, hctx⟩ := h
      subst hv
      exact ⟨hin, hctx.symm⟩
    · simp only [hin, if_false] at h
      exact ih h

/-- A string starting with `"HTML: "` is never the dead-branch
sentinel. -/
lemma html_append_ne_sentinel (rest : String) :
    "HTML: " ++ rest ≠ "Found in HTML attributes or tags" := by
  intro h
  have h2 : ('H' : Char) = 'F' := congrArg (fun s => s.data.headD ' ') h
  exact absurd h2 (by decide)

/-! ### Claims -/

/-- C8: with `case_sensitive = true` the variation set used by
`verify_backlink` is exactly the one-element list holding the literal
search term, unmodified. -/
theorem c8_case_sensitive_single_variation (search_term : String) :
    generate_variations search_term true = [search_term] := rfl

/-- C1: for a failed fetch outcome, `verify_backlink` returns an
unverified result propagating the outcome's error message and status
code, with `found_in`, `context`, `found_variation` and `warning` all
absent; no scanning branch is entered. -/
theorem c1_failure_short_circuit (o : FetchOutcome) (url search_term : String)
    (search_in_html case_sensitive : Bool) (h : o.success = false) :
    verify_backlink o url search_term search_in_html case_sensitive =
      { url := url, search_term := search_term, verified := false,
        error := o.error, status_code := o.status_code,
        found_in := none, context := none, found_variation := none,
        warning := none } := by
  unfold verify_backlink
  simp [h]

/-- Witness for C1 at a concrete failed outcome. -/
theorem c1_failure_short_circuit_witness :
    (FetchOutcome.mk false "" "" (some 404) "https://a.example" none
        (some "404 Client Error")).success = false ∧
    verify_backlink
        (FetchOutcome.mk false "" "" (some 404) "https://a.example" none
          (some "404 Client Error")) "https://a.example" "brand.com" true false =
      { url := "https://a.example", search_term := "brand.com", verified := false,
        error := some "404 Client Error", status_code := some 404,
        found_in := none, context := none, found_variation := none,
        warning := none } :=
  ⟨rfl, c1_failure_short_circuit _ "https://a.example" "brand.com" true false rfl⟩

/-- C2: every result of `verify_backlink` satisfies
`verified = (found_in ≠ none)`, and `context` is present only when
`verified` is true. -/
theorem c2_verified_iff_found_in (o : FetchOutcome) (url search_term : String)
    (search_in_html case_sensitive : Bool) :
    (verify_backlink o url search_term search_in_html case_sensitive).verified =
      (verify_backlink o url search_term search_in_html case_sensitive).found_in.isSome ∧
    ((verify_backlink o url search_term search_in_html case_sensitive).context.isSome = true →
      (verify_backlink o url search_term search_in_html case_sensitive).verified = true) := by
  unfold verify_backlink
  by_cases h : o.success = false
  · simp [h]
  · simp only [h, if_false]
    rcases htext : scanText (generate_variations search_term case_sensitive)
        o.text_content with _ | ⟨v, ctx⟩
    · simp only
      rcases hhtml : (if search_in_html then
          scanHtml (generate_variations search_term case_sensitive) o.html_content
          else none) with _ | ⟨v, ctx⟩
      · simp only
        rcases hurl : scanUrl (generate_variations search_term case_sensitive)
            (pyLower o.url) with _ | v
        · simp only
          rcases hheur : (if search_in_html then
              finalHeuristic search_term o.html_content else none) with _ | ⟨v, ctx⟩
          · simp
          · simp
        · simp
      · simp
    · simp

/-- Witness for C2 at a concrete outcome and term. -/
theorem c2_verified_iff_found_in_witness :
    (verify_backlink
        (FetchOutcome.mk true "welcome to brand.com store" "<p>x</p>" (some 200)
          "https://host.example" none none) "https://host.example" "brand.com"
        true false).verified =
      (verify_backlink
        (FetchOutcome.mk true "welcome to brand.com store" "<p>x</p>" (some 200)
          "https://host.example" none none) "https://host.example" "brand.com"
        true false).found_in.isSome ∧
    ((verify_backlink
        (FetchOutcome.mk true "welcome to brand.com store" "<p>x</p>" (some 200)
          "https://host.example" none none) "https://host.example" "brand.com"
        true false).context.isSome = true →
      (verify_backlink
        (FetchOutcome.mk true "welcome to brand.com store" "<p>x</p>" (some 200)
          "https://host.example" none none) "https://host.example" "brand.com"
        true false).verified = true) :=
  c2_verified_iff_found_in _ _ _ _ _

/-- C4 counterexample: on page text `"visit www.example.com today"`
with term `"example.com"` (case-insensitive), the matched variation is
the bare base term `"example.com"` — the first variation in generation
order, which matches as a substring of `www.example.com` — not one of
the `www.`-carrying forms the claim names. -/
theorem c4_counterexample_base_variation_wins :
    (verify_backlink
        (FetchOutcome.mk true "visit www.example.com today" "" (some 200)
          "https://blog.example" none none) "https://blog.example" "example.com"
        true false).found_variation = some "example.com" ∧
    pyIn "www." "example.com" = false ∧
    "example.com" ∈ generate_variations "example.com" false := by
  decide

/-- C4 amended: the scenario yields `verified = true`,
`found_in = "Page Text"`, and `found_variation = "example.com"` (the
base variation, which precedes every `www.` form in generation
order). -/
theorem c4_amended_scenario :
    (verify_backlink
        (FetchOutcome.mk true "visit www.example.com today" "" (some 200)
          "https://blog.example" none none) "https://blog.example" "example.com"
        true false).verified = true ∧
    (verify_backlink
        (FetchOutcome.mk true "visit www.example.com today" "" (some 200)
          "https://blog.example" none none) "https://blog.example" "example.com"
        true false).found_in = some "Page Text" ∧
    (verify_backlink
        (FetchOutcome.mk true "visit www.example.com today" "" (some 200)
          "https://blog.example" none none) "https://blog.example" "example.com"
        true false).found_variation = some "example.com" := by
  decide

/-- C10: whenever the HTML scan hits a variation, `find` has already
succeeded, so the dead fallback context `"Found in HTML attributes or
tags"` is never produced: the context is `"HTML: "`-prefixed or the
literal `"Found in HTML source code"`. -/
theorem c10_html_fallback_unreachable (variations : List String)
    (html v ctx : String) (h : scanHtml variations html = some (v, ctx)) :
    ((∃ rest, ctx = "HTML: " ++ rest) ∨ ctx = "Found in HTML source code") ∧
    ctx ≠ "Found in HTML attributes or tags" := by
  obtain ⟨hin, hctx⟩ := scanHtml_eq_some h
  obtain ⟨i, hfind⟩ := Option.isSome_iff_exists.mp (pyFindN_isSome_of_pyIn hin)
  unfold htmlHit at hctx
  rw [hfind] at hctx
  simp only at hctx
  split at hctx
  · subst hctx
    exact ⟨Or.inl ⟨_, rfl⟩, html_append_ne_sentinel _⟩
  · subst hctx
    exact ⟨Or.inr rfl, by decide⟩

/-- Witness for C10 at a concrete HTML scan hit. -/
theorem c10_html_fallback_unreachable_witness :
    ((∃ rest, ("HTML: x brand y" : String) = "HTML: " ++ rest) ∨
      ("HTML: x brand y" : String) = "Found in HTML source code") ∧
    ("HTML: x brand y" : String) ≠ "Found in HTML attributes or tags" :=
  c10_html_fallback_unreachable ["brand"] "x brand y" "brand" "HTML: x brand y"
    (by decide)

/-- The first dot-separated label of the lowercased form of any string
starting with `"www."` is `"www"`. -/
lemma takeBefore_lower_www (rest : String) :
    pyTakeBefore (pyLower ("www." ++ rest)) '.' = "www" := by
  have hdata : ("www." ++ rest).data = 'w' :: 'w' :: 'w' :: '.' :: rest.data := rfl
  have hw : Char.toLower 'w' = 'w' := by decide
  have hd : Char.toLower '.' = '.' := by decide
  unfold pyTakeBefore pyLower
  rw [hdata]
  simp only [List.map_cons, hw, hd, List.takeWhile_cons]
  norm_num
  decide

/-- When the domain-in-links heuristic fires, its context is the
literal `"Domain found in page links"`. -/
lemma finalHeuristic_eq_some {term html sd ctx : String}
    (h : finalHeuristic term html = some (sd, ctx)) :
    ctx = "Domain found in page links" := by
  simp only [finalHeuristic] at h
  split at h <;> split at h <;> simp_all

/-- C5 counterexample: with search term `"www.example.com"` (no
`"http"`), label `"example"` longer than 3 characters and present in
the HTML, the final step does not fire — the code strips
protocol/`www.` only when the term contains `"http"`, so the derived
token is `"www"` (length 3) — and the result stays unverified. -/
theorem c5_counterexample_www_term_never_fires :
    pyIn "example" "check example here" = true ∧
    3 < pyLen "example" ∧
    finalHeuristic "www.example.com" "check example here" = none ∧
    (verify_backlink
        (FetchOutcome.mk true "" "check example here" (some 200) "no-match" none
          none) "u" "www.example.com" true true).verified = false ∧
    (verify_backlink
        (FetchOutcome.mk true "" "check example here" (some 200) "no-match" none
          none) "u" "www.example.com" true true).found_in = none := by
  decide

/-- C5 amended: the stripping of protocol/`www.`/path happens only
when the lowercased term contains `"http"`; for a term starting with
`"www."` and not containing `"http"`, the derived token is `"www"`
(length 3, never longer than 3), so the heuristic never fires.  When
the heuristic does fire (term with `"http"`, token longer than 3
characters and contained in the HTML) and the three earlier steps all
failed, the result is `found_in = "HTML/Links"` with context
`"Domain found in page links"` and the stripped search domain as the
matched variation. -/
theorem c5_amended_domain_heuristic :
    (∀ rest html : String, pyIn "http" (pyLower ("www." ++ rest)) = false →
        finalHeuristic ("www." ++ rest) html = none) ∧
    (∀ (o : FetchOutcome) (url term : String) (cs : Bool) (sd ctx : String),
        o.success = true →
        scanText (generate_variations term cs) o.text_content = none →
        scanHtml (generate_variations term cs) o.html_content = none →
        scanUrl (generate_variations term cs) (pyLower o.url) = none →
        finalHeuristic term o.html_content = some (sd, ctx) →
        (verify_backlink o url term true cs).verified = true ∧
        (verify_backlink o url term true cs).found_in = some "HTML/Links" ∧
        (verify_backlink o url term true cs).context =
          some "Domain found in page links" ∧
        (verify_backlink o url term true cs).found_variation = some sd) := by
  constructor
  · intro rest html hhttp
    unfold finalHeuristic
    simp only [hhttp, Bool.false_eq_true, if_false, takeBefore_lower_www]
    norm_num [pyLen]
  · intro o url term cs sd ctx hsucc htext hhtml hurl hfire
    have hctx : ctx = "Domain found in page links" := finalHeuristic_eq_some hfire
    subst hctx
    unfold verify_backlink
    simp only [hsucc, Bool.true_eq_false, if_false, htext, if_true, hhtml, hurl,
      hfire]
    exact ⟨trivial, trivial, by decide, trivial⟩

/-- Witness for C5's amended statement: the never-fires part at
`"www.example.com"`, and the fires part on a case-sensitive
`"https://Gulbhahar.com"` scan whose first three steps fail while the
brand token `"gulbhahar"` occurs in the HTML. -/
theorem c5_amended_domain_heuristic_witness :
    finalHeuristic ("www." ++ "example.com") "x" = none ∧
    (verify_backlink
        (FetchOutcome.mk true "" "visit gulbhahar shop" (some 200) "zzz" none none)
        "u" "https://Gulbhahar.com" true true).verified = true ∧
    (verify_backlink
        (FetchOutcome.mk true "" "visit gulbhahar shop" (some 200) "zzz" none none)
        "u" "https://Gulbhahar.com" true true).found_variation =
      some "gulbhahar.com" := by
  refine ⟨c5_amended_domain_heuristic.1 "example.com" "x" (by decide), ?_, ?_⟩
  · exact (c5_amended_domain_heuristic.2
      (FetchOutcome.mk true "" "visit gulbhahar shop" (some 200) "zzz" none none)
      "u" "https://Gulbhahar.com" true "gulbhahar.com" "Domain found in page links"
      rfl (by decide) (by decide) (by decide) (by decide)).1
  · exact (c5_amended_domain_heuristic.2
      (FetchOutcome.mk true "" "visit gulbhahar shop" (some 200) "zzz" none none)
      "u" "https://Gulbhahar.com" true "gulbhahar.com" "Domain found in page links"
      rfl (by decide) (by decide) (by decide) (by decide)).2.2.2

/-- C9: with `case_sensitive = true` and a term containing an
uppercase letter, neither the text scan nor the HTML scan can hit on a
successful fetch (whose contents are fully lowercased), so a verified
result can only come from the final-URL check or the domain-in-links
heuristic. -/
theorem c9_uppercase_term_skips_content_scans (o : FetchOutcome)
    (url term : String) (search_in_html : Bool)
    (hsucc : o.success = true)
    (htext : ∀ c ∈ o.text_content.data, c.isUpper = false)
    (hhtml : ∀ c ∈ o.html_content.data, c.isUpper = false)
    (hterm : ∃ c ∈ term.data, c.isUpper = true) :
    scanText (generate_variations term true) o.text_content = none ∧
    scanHtml (generate_variations term true) o.html_content = none ∧
    ((verify_backlink o url term search_in_html true).verified = true →
      (scanUrl (generate_variations term true) (pyLower o.url)).isSome = true ∨
      (finalHeuristic term o.html_content).isSome = true) := by
  have hvar : generate_variations term true = [term] := rfl
  have hintext : pyIn term o.text_content = false :=
    pyIn_eq_false_of_upper hterm htext
  have hinhtml : pyIn term o.html_content = false :=
    pyIn_eq_false_of_upper hterm hhtml
  have h1 : scanText (generate_variations term true) o.text_content = none := by
    rw [hvar]
    simp [scanText, hintext]
  have h2 : scanHtml (generate_variations term true) o.html_content = none := by
    rw [hvar]
    simp [scanHtml, hinhtml]
  refine ⟨h1, h2, ?_⟩
  intro hver
  unfold verify_backlink at hver
  simp only [hsucc, Bool.true_eq_false, if_false, h1, h2, ite_self] at hver
  rcases hurl : scanUrl (generate_variations term true) (pyLower o.url) with _ | v
  · rw [hurl] at hver
    rcases hheur : finalHeuristic term o.html_content with _ | p
    · rw [hheur] at hver
      cases search_in_html <;> simp at hver
    · right
      rfl
  · left
    rfl

/-- Witness for C9 at a concrete lowercase page and uppercase term. -/
theorem c9_uppercase_term_skips_content_scans_witness :
    scanText (generate_variations "Brand.com" true) "plain page text" = none ∧
    scanHtml (generate_variations "Brand.com" true) "<p>plain html</p>" = none ∧
    ((verify_backlink
        (FetchOutcome.mk true "plain page text" "<p>plain html</p>" (some 200)
          "https://host.example" none none) "https://host.example" "Brand.com"
        true true).verified = true →
      (scanUrl (generate_variations "Brand.com" true)
        (pyLower "https://host.example")).isSome = true ∨
      (finalHeuristic "Brand.com" "<p>plain html</p>").isSome = true) :=
  c9_uppercase_term_skips_content_scans
    (FetchOutcome.mk true "plain page text" "<p>plain html</p>" (some 200)
      "https://host.example" none none) "https://host.example" "Brand.com" true
    rfl (by decide) (by decide) (by decide)

/-- Unfolding equation for the fetch loop at a 403 response attempt. -/
lemma fetchLoop_cons_resp403 (eT eH : String → String)
    (url body finalUrl : String) (rest : List Attempt) :
    fetchLoop eT eH url (Attempt.resp 403 body finalUrl :: rest) =
      if body ≠ "" ∧ 100 < pyLen (pyLower body) then
        { success := true, text_content := pyLower body,
          html_content := pyLower body, status_code := some 403,
          url := finalUrl,
          warning := some "403 Forbidden but content was accessible",
          error := none }
      else if rest ≠ [] then fetchLoop eT eH url rest
      else
        { success := false, text_content := "", html_content := "",
          status_code := some 403, url := url, warning := none,
          error := some "403 Forbidden - Access denied" } := rfl

/-- An exhausted run of 403 responses whose bodies never pass the
100-character test ends in the `AccessDenied` failure record. -/
lemma fetchLoop_403_exhaust (eT eH : String → String) (url : String) :
    ∀ attempts : List Attempt, attempts ≠ [] →
    (∀ a ∈ attempts, ∃ body finalUrl, a = Attempt.resp 403 body finalUrl ∧
        ¬(body ≠ "" ∧ 100 < pyLen (pyLower body))) →
    fetchLoop eT eH url attempts =
      { success := false, text_content := "", html_content := "",
        status_code := some 403, url := url, warning := none,
        error := some "403 Forbidden - Access denied" } := by
  intro attempts
  induction attempts with
  | nil => intro hne _; exact absurd rfl hne
  | cons a rest ih =>
    intro _ hall
    obtain ⟨body, finalUrl, ha, hshort⟩ := hall a (List.mem_cons_self a rest)
    subst ha
    by_cases hrest : rest = []
    · subst hrest
      rw [fetchLoop_cons_resp403, if_neg hshort, if_neg (by simp)]
    · rw [fetchLoop_cons_resp403, if_neg hshort, if_pos hrest]
      exact ih hrest (fun a ha => hall a (List.mem_cons_of_mem _ ha))

/-- C3: on a 403 response, a decoded body longer than 100 characters
yields an immediate success outcome carrying the lowercased body as
both contents, status 403 and the soft-block warning; a shorter or
absent body causes a retry while attempts remain, and a run of such
attempts exhausts into a 403 failure with the access-denied message. -/
theorem c3_fetch_403_soft_block (eT eH : String → String)
    (url body finalUrl : String) (rest attempts : List Attempt) :
    (body ≠ "" → 100 < pyLen (pyLower body) →
      fetchLoop eT eH url (Attempt.resp 403 body finalUrl :: rest) =
        { success := true, text_content := pyLower body,
          html_content := pyLower body, status_code := some 403,
          url := finalUrl,
          warning := some "403 Forbidden but content was accessible",
          error := none }) ∧
    (¬(body ≠ "" ∧ 100 < pyLen (pyLower body)) → rest ≠ [] →
      fetchLoop eT eH url (Attempt.resp 403 body finalUrl :: rest) =
        fetchLoop eT eH url rest) ∧
    (attempts ≠ [] →
      (∀ a ∈ attempts, ∃ b fu, a = Attempt.resp 403 b fu ∧
          ¬(b ≠ "" ∧ 100 < pyLen (pyLower b))) →
      fetchLoop eT eH url attempts =
        { success := false, text_content := "", html_content := "",
          status_code := some 403, url := url, warning := none,
          error := some "403 Forbidden - Access denied" }) := by
  refine ⟨?_, ?_, fetchLoop_403_exhaust eT eH url attempts⟩
  · intro hbody hlen
    rw [fetchLoop_cons_resp403, if_pos ⟨hbody, hlen⟩]
  · intro hshort hrest
    rw [fetchLoop_cons_resp403, if_neg hshort, if_pos hrest]

/-- Witness for C3: a 120-character body is accepted as a soft-block
success; two attempts with a 40-character body exhaust into the 403
failure. -/
theorem c3_fetch_403_soft_block_witness :
    fetchLoop id id "https://a.example"
        [Attempt.resp 403 (String.mk (List.replicate 120 'a')) "https://f.example"] =
      { success := true,
        text_content := pyLower (String.mk (List.replicate 120 'a')),
        html_content := pyLower (String.mk (List.replicate 120 'a')),
        status_code := some 403, url := "https://f.example",
        warning := some "403 Forbidden but content was accessible",
        error := none } ∧
    fetchLoop id id "https://a.example"
        [Attempt.resp 403 (String.mk (List.replicate 40 'b')) "https://f.example",
         Attempt.resp 403 (String.mk (List.replicate 40 'b')) "https://f.example"] =
      { success := false, text_content := "", html_content := "",
        status_code := some 403, url := "https://a.example", warning := none,
        error := some "403 Forbidden - Access denied" } := by
  constructor
  · exact (c3_fetch_403_soft_block id id "https://a.example"
      (String.mk (List.replicate 120 'a')) "https://f.example" [] []).1
      (by decide) (by decide)
  · refine (c3_fetch_403_soft_block id id "https://a.example" "" ""
      []
      [Attempt.resp 403 (String.mk (List.replicate 40 'b')) "https://f.example",
       Attempt.resp 403 (String.mk (List.replicate 40 'b')) "https://f.example"]).2.2
      (by simp) ?_
    intro a ha
    simp only [List.mem_cons, List.not_mem_nil, or_false] at ha
    rcases ha with rfl | rfl
    · exact ⟨_, _, rfl, by decide⟩
    · exact ⟨_, _, rfl, by decide⟩

/-- C6: the batch produces exactly one result per URL that is
non-empty after stripping (none dropped, none duplicated), the summary
counts all of them, and a per-URL operation that raises contributes an
unverified processing-error result instead of aborting the batch. -/
theorem c6_batch_one_result_per_url (op : String → Except String BacklinkResult)
    (search_term : String) (urls : List String) :
    (verify_multiple_backlinks op search_term urls).length =
      (urls.filter (fun u => pyStrip u ≠ "")).length ∧
    (mkSummary (verify_multiple_backlinks op search_term urls)).total_urls =
      (urls.filter (fun u => pyStrip u ≠ "")).length ∧
    (∀ u ∈ urls, pyStrip u ≠ "" → ∀ e, op (pyStrip u) = Except.error e →
      processingErrorResult (pyStrip u) search_term e ∈
        verify_multiple_backlinks op search_term urls ∧
      (processingErrorResult (pyStrip u) search_term e).verified = false ∧
      (processingErrorResult (pyStrip u) search_term e).error =
        some ("Processing error: " ++ e)) := by
  refine ⟨?_, ?_, ?_⟩
  · unfold verify_multiple_backlinks
    rw [List.length_map]
  · unfold mkSummary verify_multiple_backlinks
    simp [List.length_map]
  · intro u hu hne e hop
    refine ⟨?_, rfl, rfl⟩
    unfold verify_multiple_backlinks
    have hflt : u ∈ urls.filter (fun u => pyStrip u ≠ "") :=
      List.mem_filter.mpr ⟨hu, by simpa using hne⟩
    refine List.mem_map.mpr ⟨u, hflt, ?_⟩
    rw [hop]

/-- Witness for C6: five non-empty URLs with an always-raising per-URL
operation yield five results, `total_urls = 5`, and the third URL's
processing-error result is present. -/
theorem c6_batch_one_result_per_url_witness :
    (verify_multiple_backlinks (fun _ => Except.error "boom") "brand.com"
      ["a.com", "b.com", "c.com", "d.com", "e.com"]).length = 5 ∧
    (mkSummary (verify_multiple_backlinks (fun _ => Except.error "boom")
      "brand.com" ["a.com", "b.com", "c.com", "d.com", "e.com"])).total_urls = 5 ∧
    processingErrorResult (pyStrip "c.com") "brand.com" "boom" ∈
      verify_multiple_backlinks (fun _ => Except.error "boom") "brand.com"
        ["a.com", "b.com", "c.com", "d.com", "e.com"] := by
  have h := c6_batch_one_result_per_url (fun _ => Except.error "boom") "brand.com"
    ["a.com", "b.com", "c.com", "d.com", "e.com"]
  refine ⟨h.1.trans (by decide), h.2.1.trans (by decide), ?_⟩
  exact (h.2.2 "c.com" (by decide) (by decide) "boom" rfl).1

/-- C7 counterexample: a result whose `errorMessage` is present but
empty is not counted by the aggregation (Python truthiness), so
`errorCount` is not the number of results with a non-absent
`errorMessage`. -/
theorem c7_counterexample_empty_error_message :
    (mkSummary [BacklinkResult.mk "u" "t" false (some "") none none none none
        none]).error_count = 0 ∧
    ([BacklinkResult.mk "u" "t" false (some "") none none none none
        none].countP (fun r => r.error.isSome)) = 1 := by
  decide

/-- C7 amended: `successRatePercent` is 0 when there are no results
and otherwise `round(100 * verifiedCount / totalCount, 1)`
(round-half-to-even over the rationals); `verifiedCount` counts
results with `verified = true`, and `errorCount` counts results whose
`errorMessage` is present *and non-empty*. -/
theorem c7_amended_summary_aggregation (results : List BacklinkResult) :
    (mkSummary results).total_urls = results.length ∧
    (mkSummary results).verified_count =
      (results.filter (fun r => r.verified)).length ∧
    (mkSummary results).error_count =
      (results.filter (fun r => pyTruthyStr r.error)).length ∧
    (mkSummary results).success_rate =
      (if results.length = 0 then 0 else
        pyRound1 ((100 : ℚ) * ((results.filter (fun r => r.verified)).length : ℚ) /
          (results.length : ℚ))) := by
  refine ⟨rfl, rfl, rfl, ?_⟩
  unfold mkSummary
  by_cases h : results.length = 0
  · simp [h]
  · simp only [h, if_false, Nat.pos_of_ne_zero h, if_pos]
    congr 1
    ring

end Backlinks
